import Mathlib

/-
Verification of the two CLI tools of the k8ev-kit repository:
`tools/set_fee_recipient.py` (fee-recipient setter) and
`tools/gen_external_config.py` (external-node config generator).

The Python sources are shallowly embedded: every pure computation is a Lean
function; the process outcome (exit code, stdout, stderr) is an explicit
result record; the external world (HTTP response, token file, Kubernetes /
Helm query results) is passed in as explicit values, mirroring the single
call site each tool has for each external interaction.
-/

namespace K8ev

/-! ## String primitives mirroring Python semantics -/

/-- ASCII whitespace as recognised by Python's `str.strip()` (for the ASCII
range) and by `bytes.fromhex`: space, tab, newline, carriage return,
vertical tab, form feed. -/
def isPySpace (c : Char) : Bool :=
  c == ' ' || c == '\t' || c == '\n' || c == '\r' ||
  c == Char.ofNat 11 || c == Char.ofNat 12

/-- Hexadecimal digit, as accepted by Python's `bytes.fromhex`. -/
def isHexChar (c : Char) : Bool :=
  (48 ≤ c.toNat && c.toNat ≤ 57) ||
  (97 ≤ c.toNat && c.toNat ≤ 102) ||
  (65 ≤ c.toNat && c.toNat ≤ 70)

/-- Success predicate of Python's `bytes.fromhex`: the string must consist of
pairs of hex digits; ASCII whitespace is permitted before, after and between
the two-digit pairs, but not inside a pair. -/
def fromhexOk : List Char → Bool
  | [] => true
  | [c] => isPySpace c
  | c :: d :: rest =>
    if isPySpace c then fromhexOk (d :: rest)
    else isHexChar c && isHexChar d && fromhexOk rest

/-- Python's `str.strip()` on a character list: drop leading and trailing
whitespace. -/
def pyStripList (l : List Char) : List Char :=
  ((l.dropWhile isPySpace).reverse.dropWhile isPySpace).reverse

/-- Python's `str.strip()` at the `String` level. -/
def pyStrip (s : String) : String := ⟨pyStripList s.data⟩

/-- `needle` occurs as a contiguous sublist of the second argument;
this is Python's `needle in hay` on strings. -/
def subList (needle : List Char) : List Char → Bool
  | [] => needle.isEmpty
  | c :: t => needle.isPrefixOf (c :: t) || subList needle t

/-- Python's substring test `needle in hay`. -/
def strContains (hay needle : String) : Bool := subList needle.data hay.data

/-- Python's `s.startswith("0x")`. -/
def startsWith0x : List Char → Bool
  | '0' :: 'x' :: _ => true
  | _ => false

/-- Python's `s.rstrip('/')`: drop trailing slash characters. -/
def rstripSlash (l : List Char) : List Char :=
  (l.reverse.dropWhile (fun c => c == '/')).reverse

/-- Whether a validator returned a value (as opposed to calling `die`). -/
def isAccept : Except String String → Bool
  | .ok _ => true
  | .error _ => false

instance {ε α : Type} [DecidableEq ε] [DecidableEq α] : DecidableEq (Except ε α)
  | .error a, .error b =>
    if h : a = b then .isTrue (by rw [h]) else .isFalse (by intro hh; injection hh; contradiction)
  | .error _, .ok _ => .isFalse (by intro h; cases h)
  | .ok _, .error _ => .isFalse (by intro h; cases h)
  | .ok a, .ok b =>
    if h : a = b then .isTrue (by rw [h]) else .isFalse (by intro hh; injection hh; contradiction)

/-! ## Fee-recipient setter (`tools/set_fee_recipient.py`) -/

/-- The fixed timeout `TIMEOUT_SECS = 10.0` of the setter, in seconds. -/
def TIMEOUT_SECS : Nat := 10

/-- The `0x`-prefix normalisation step of `validate_pubkey`:
prepend `0x` when the (already stripped) input does not start with it. -/
def normalizePk (l : List Char) : List Char :=
  if startsWith0x l then l else '0' :: 'x' :: l

/-- Body of `validate_pubkey` after the initial `strip()`:
normalise the prefix, require `0x` + total length 98, then require the last
96 characters to pass `bytes.fromhex`. -/
def pubkey_check (l : List Char) : Except String String :=
  if startsWith0x (normalizePk l) && ((normalizePk l).length == 98) then
    if fromhexOk ((normalizePk l).drop 2) then .ok ⟨normalizePk l⟩
    else .error "pubkey is not valid hex"
  else .error "pubkey must be 0x + 96 hex chars (48 bytes)"

/-- `validate_pubkey` of `set_fee_recipient.py`: strip, normalise `0x`,
check length 98 and hex-decodability; `.error` is the message passed to
`die` (stderr + exit 1). -/
def validate_pubkey (s : String) : Except String String :=
  pubkey_check (pyStripList s.data)

/-- The normalised form of a pubkey argument (stripped, `0x`-prefixed). -/
def normalize_pubkey (s : String) : List Char :=
  normalizePk (pyStripList s.data)

/-- Body of `validate_eth_address` after the initial `strip()`. -/
def eth_check (l : List Char) : Except String String :=
  if startsWith0x l && (l.length == 42) then
    if fromhexOk (l.drop 2) then .ok ⟨l⟩
    else .error "fee recipient is not valid hex"
  else .error "fee recipient must be 0x + 40 hex chars"

/-- `validate_eth_address` of `set_fee_recipient.py`: strip, require `0x` +
total length 42, then hex-decodability of the last 40 characters. -/
def validate_eth_address (s : String) : Except String String :=
  eth_check (pyStripList s.data)

/-- State of the token file as the setter observes it: absent, unreadable
(with the OS error text), or present with some content. -/
inductive FileState where
  | missing : FileState
  | unreadable : String → FileState
  | content : String → FileState
deriving DecidableEq

/-- `read_token` of `set_fee_recipient.py`: fail when the file is missing,
unreadable, or whitespace-only; otherwise return the stripped content. -/
def read_token (path : String) : FileState → Except String String
  | .missing => .error ("token file not found: " ++ path)
  | .unreadable e => .error ("error reading token file " ++ path ++ ": " ++ e)
  | .content text =>
    if (pyStripList text.data).isEmpty then .error ("token file " ++ path ++ " is empty")
    else .ok ⟨pyStripList text.data⟩

/-- Outcome of the single `requests.post` call: an HTTP response, a timeout,
or any other transport-level exception (with its text). -/
inductive HttpOutcome where
  | response : Nat → String → HttpOutcome
  | timeout : HttpOutcome
  | transportError : String → HttpOutcome
deriving DecidableEq

/-- The one HTTP request `post_fee_recipient` constructs: URL, headers,
JSON body field, and the timeout passed to `requests.post`. -/
structure RequestRecord where
  url : String
  authorization : String
  contentType : String
  ethaddress : String
  timeout : Nat
deriving DecidableEq

/-- The request constructed by `post_fee_recipient` from its arguments. -/
def request_of (vcUrl token pubkey addr : String) : RequestRecord where
  url := (⟨rstripSlash vcUrl.data⟩ : String) ++ "/eth/v1/validator/" ++ pubkey ++ "/feerecipient"
  authorization := "Bearer " ++ token
  contentType := "application/json"
  ethaddress := addr
  timeout := TIMEOUT_SECS

/-- Response interpretation of `post_fee_recipient`: a delivered response is
returned as status/body; a timeout or any other `RequestException` becomes a
`die` message. -/
def post_fee_recipient (http : HttpOutcome) : Except String (Nat × String) :=
  match http with
  | .response status body => .ok (status, body)
  | .timeout => .error ("request timed out after " ++ toString TIMEOUT_SECS ++ "s (treating as permanent error)")
  | .transportError e => .error ("request error: " ++ e)

/-- Outcome of one run of the setter: exit code, stdout lines, stderr lines,
and the request that was issued (`none` when the run died beforehand). -/
structure RunResult where
  exitCode : Nat
  stdoutLines : List String
  stderrLines : List String
  request : Option RequestRecord
deriving DecidableEq

/-- Number of HTTP requests a run issued. -/
def requestCount (r : RunResult) : Nat :=
  match r.request with
  | none => 0
  | some _ => 1

/-- The body as displayed in the unexpected-status message:
`body.strip() or '<no body>'`. -/
def body_disp (body : String) : String :=
  if (pyStripList body.data).isEmpty then "<no body>" else ⟨pyStripList body.data⟩

/-- `main` of `set_fee_recipient.py`: validate the pubkey, the address and
the token file in order (each failure is `die`: stderr `ERROR: ...`, exit 1,
no request); then issue the single request and map the outcome per the fixed
status table. -/
def mainRun (pubkeyArg feeArg vcUrl tokenPath : String) (fs : FileState)
    (http : HttpOutcome) : RunResult :=
  match validate_pubkey pubkeyArg with
  | .error m => ⟨1, [], ["ERROR: " ++ m], none⟩
  | .ok pubkey =>
    match validate_eth_address feeArg with
    | .error m => ⟨1, [], ["ERROR: " ++ m], none⟩
    | .ok addr =>
      match read_token tokenPath fs with
      | .error m => ⟨1, [], ["ERROR: " ++ m], none⟩
      | .ok token =>
        let req := request_of vcUrl token pubkey addr
        match post_fee_recipient http with
        | .error m => ⟨1, [], ["ERROR: " ++ m], some req⟩
        | .ok (status, body) =>
          if status == 202 then
            ⟨0, ["OK: fee recipient set to " ++ addr ++ " for " ++ pubkey], [], some req⟩
          else if status == 401 then
            ⟨1, [], ["ERROR: unauthorized: check token and VC HTTP settings/URL"], some req⟩
          else if status == 404 then
            ⟨1, [], ["ERROR: validator not found (VC has not loaded this pubkey?)"], some req⟩
          else
            ⟨1, [], ["ERROR: unexpected status " ++ toString status ++ ": " ++ body_disp body], some req⟩

/-! ## Config generator (`tools/gen_external_config.py`) -/

/-- A Kubernetes service as the generator reads it from the label query:
`metadata.name` and `spec.type` (empty string when `type` is absent). -/
structure Service where
  name : String
  type : String
deriving DecidableEq

/-- The three values the generator reads out of `helm get values` output:
`geth.internal.auth.port`, `lighthouseBeacon.internal.api.port`, and
`externalNode.jwtSecretName` (each `none` when the key path is absent). -/
structure HelmValues where
  gethAuthPort : Option Nat
  beaconApiPort : Option Nat
  jwtSecretName : Option String
deriving DecidableEq

/-- One iteration of the service loop in `find_services_by_release`: only
`ClusterIP` services are considered; a name containing `geth` and not
`public` unconditionally overwrites the geth slot, and likewise a name
containing `lighthouse-beacon` and not `public` overwrites the beacon
slot. -/
def selectStep (acc : Option String × Option String) (svc : Service) :
    Option String × Option String :=
  if svc.type == "ClusterIP" then
    let g := if strContains svc.name "geth" && !(strContains svc.name "public")
      then some svc.name else acc.1
    let b := if strContains svc.name "lighthouse-beacon" && !(strContains svc.name "public")
      then some svc.name else acc.2
    (g, b)
  else acc

/-- The loop of `find_services_by_release` over the listed services. -/
def find_services_list (services : List Service) : Option String × Option String :=
  services.foldl selectStep (none, none)

/-- `find_services_by_release`: when the `kubectl` query fails or its output
does not parse, both slots are `none`; otherwise the loop runs over the
listed services. -/
def find_services_by_release : Option (List Service) → Option String × Option String
  | none => (none, none)
  | some services => find_services_list services

/-- Qualifying services for the geth (execution) slot. -/
def gethQual (s : Service) : Bool :=
  s.type == "ClusterIP" && strContains s.name "geth" && !(strContains s.name "public")

/-- Qualifying services for the beacon slot. -/
def beaconQual (s : Service) : Bool :=
  s.type == "ClusterIP" && strContains s.name "lighthouse-beacon" && !(strContains s.name "public")

/-- The name of the last service in the list satisfying `p`, if any. -/
def lastMatch (p : Service → Bool) : List Service → Option String
  | [] => none
  | s :: t => Option.or (lastMatch p t) (if p s then some s.name else none)

/-- `detect_jwt_secret`: a truthy (present, non-empty) value from
`externalNode.jwtSecretName` wins; otherwise the fixed candidate name
`<release>-eth-validator-auth-jwt` is used when such a secret exists in the
cluster; otherwise `None`. `secretExists` is the `kubectl get secret`
oracle. -/
def detect_jwt_secret (release_name : String) (values : HelmValues)
    (secretExists : String → Bool) : Option String :=
  match values.jwtSecretName with
  | some s =>
    if s == "" then
      let cand := release_name ++ "-eth-validator-auth-jwt"
      if secretExists cand then some cand else none
    else some s
  | none =>
    let cand := release_name ++ "-eth-validator-auth-jwt"
    if secretExists cand then some cand else none

/-- The result of `generate_config`: the emitted `config` dictionary plus
the metadata fields the yaml formatter consumes. -/
structure GenResult where
  executionEndpoint : String
  beaconEndpoint : String
  jwtSecretName : String
  externalEnabled : Bool
  gethEnabled : Bool
  beaconEnabled : Bool
  geth_service : Option String
  beacon_service : Option String
  exec_port : Nat
  beacon_port : Nat
  jwt_secret : Option String
deriving DecidableEq

/-- `generate_config`: fatal (`sys.exit(1)`, message on stderr, nothing on
stdout) when the release is absent or when neither role's service was
found; otherwise the configuration document. `releaseExists` is the
`check_helm_release` oracle and `servicesQuery` the parsed `kubectl get svc`
output (`none` on command failure / parse failure). -/
def generate_config (release_name : String) (releaseExists : Bool)
    (values : HelmValues) (servicesQuery : Option (List Service))
    (secretExists : String → Bool) : Except String GenResult :=
  if !releaseExists then
    .error ("Error: Helm release '" ++ release_name ++ "' not found")
  else if (find_services_by_release servicesQuery).1.isNone &&
      (find_services_by_release servicesQuery).2.isNone then
    .error ("Error: Could not find Geth or Beacon services for release '" ++ release_name ++ "'")
  else
    .ok {
      executionEndpoint :=
        match (find_services_by_release servicesQuery).1 with
        | some n => "http://" ++ n ++ ":" ++ toString (values.gethAuthPort.getD 8551)
        | none => ""
      beaconEndpoint :=
        match (find_services_by_release servicesQuery).2 with
        | some n => "http://" ++ n ++ ":" ++ toString (values.beaconApiPort.getD 5052)
        | none => ""
      jwtSecretName :=
        (detect_jwt_secret release_name values secretExists).getD "REPLACE_WITH_JWT_SECRET_NAME"
      externalEnabled := true
      gethEnabled := false
      beaconEnabled := false
      geth_service := (find_services_by_release servicesQuery).1
      beacon_service := (find_services_by_release servicesQuery).2
      exec_port := values.gethAuthPort.getD 8551
      beacon_port := values.beaconApiPort.getD 5052
      jwt_secret := detect_jwt_secret release_name values secretExists }

/-- The warning comment appended to the `jwtSecretName` line by
`format_yaml_config` when no JWT secret was detected. -/
def jwt_warning_of (r : GenResult) : String :=
  if r.jwt_secret.isNone then "  # WARNING: JWT secret not auto-detected - REPLACE THIS VALUE!"
  else ""

/-- `format_yaml_config`: the YAML document written to stdout, including the
warning comment appended to the `jwtSecretName` line when no secret was
detected. `ns` is the namespace and `generated_at` the timestamp string. -/
def format_yaml_config (release_name ns generated_at : String) (r : GenResult) : String :=
  "# External node configuration for deployment: " ++ release_name ++ "\n" ++
    "# Generated: " ++ generated_at ++ "\n" ++
    "# Namespace: " ++ ns ++ "\n" ++
    "# Detected services:\n" ++
    "#   - Geth: " ++ r.geth_service.getD "(NOT FOUND)" ++ "\n" ++
    "#   - Beacon: " ++ r.beacon_service.getD "(NOT FOUND)" ++ "\n" ++
    "\nexternalNode:\n  enabled: true\n\n" ++
    "  # Endpoints (auto-detected from running services)\n" ++
    "  executionEndpoint: \"" ++ r.executionEndpoint ++ "\"\n" ++
    "  beaconEndpoint: \"" ++ r.beaconEndpoint ++ "\"\n\n" ++
    "  # JWT secret (CRITICAL: must match the node deployment)\n" ++
    "  jwtSecretName: \"" ++ r.jwtSecretName ++ "\"" ++ jwt_warning_of r ++
    "\n\n# Disable local node components (validators only)\ngeth:\n  enabled: false\n\nlighthouseBeacon:\n  enabled: false\n"

/-- Observable outcome of one generator run: exit code and stdout content.
Diagnostics go to stderr and are not part of the structured output. -/
structure GenRun where
  exitCode : Nat
  stdout : String
deriving DecidableEq

/-- `main` of `gen_external_config.py`, restricted to its stdout/exit-code
behaviour: on any fatal condition nothing is written to stdout and the exit
code is 1; otherwise the YAML document (plus the trailing newline `print`
adds) is written and the exit code is 0. -/
def runGenerator (release_name ns generated_at : String) (releaseExists : Bool)
    (values : HelmValues) (servicesQuery : Option (List Service))
    (secretExists : String → Bool) : GenRun :=
  match generate_config release_name releaseExists values servicesQuery secretExists with
  | .error _ => ⟨1, ""⟩
  | .ok r => ⟨0, format_yaml_config release_name ns generated_at r ++ "\n"⟩

/-! ## Claim-side reference definitions

These two definitions follow the words of the specification's claims (not
the source); they exist only to be compared against the source-derived
validators. -/

/-- Modelled from the claim's words (C2): prepend `0x` if absent, then accept
exactly when the resulting string is 98 characters long and its last 96
characters decode as hexadecimal. No whitespace handling is mentioned. -/
def claimPubkeyAccepts (s : String) : Bool :=
  let t := if startsWith0x s.data then s.data else '0' :: 'x' :: s.data
  (t.length == 98) && fromhexOk (t.drop 2)

/-- Modelled from the claim's words (C3): accept exactly when the string is
42 characters long, starts with `0x`, and its last 40 characters decode as
hexadecimal. No whitespace handling is mentioned. -/
def claimEthAccepts (s : String) : Bool :=
  startsWith0x s.data && (s.data.length == 42) && fromhexOk (s.data.drop 2)

/-! ## Helper lemmas -/

theorem data_append (x y : String) : (x ++ y).data = x.data ++ y.data := rfl

theorem isPrefixOfAppend : ∀ (n h q : List Char), n.isPrefixOf h = true →
    n.isPrefixOf (h ++ q) = true
  | [], _, _, _ => by simp [List.isPrefixOf]
  | _ :: _, [], _, hp => by cases hp
  | a :: as, b :: bs, q, hp => by
    simp only [List.isPrefixOf, Bool.and_eq_true] at hp ⊢
    exact ⟨hp.1, isPrefixOfAppend as bs q hp.2⟩

theorem isPrefixOfRefl : ∀ (n : List Char), n.isPrefixOf n = true
  | [] => rfl
  | a :: as => by
    simp only [List.isPrefixOf, Bool.and_eq_true]
    exact ⟨by simp, isPrefixOfRefl as⟩

theorem subList_nil_needle : ∀ (h : List Char), subList [] h = true
  | [] => rfl
  | _ :: _ => by simp [subList, List.isPrefixOf]

theorem subList_refl (n : List Char) : subList n n = true := by
  cases n with
  | nil => rfl
  | cons c t => simp [subList, isPrefixOfRefl]

theorem subList_append_left (n : List Char) (p : List Char) {m : List Char}
    (h : subList n m = true) : subList n (p ++ m) = true := by
  induction p with
  | nil => exact h
  | cons x p ih => simp only [List.cons_append, subList, Bool.or_eq_true]; exact Or.inr ih

theorem subList_append_right (n : List Char) (q : List Char) : ∀ {m : List Char},
    subList n m = true → subList n (m ++ q) = true := by
  intro m
  induction m with
  | nil =>
    intro h
    simp only [subList, List.isEmpty_iff] at h
    subst h
    exact subList_nil_needle q
  | cons c t ih =>
    intro h
    simp only [subList, Bool.or_eq_true] at h ⊢
    cases h with
    | inl hp => exact Or.inl (isPrefixOfAppend n (c :: t) q hp)
    | inr hs => exact Or.inr (ih hs)

theorem strContains_self (m : String) : strContains m m = true := subList_refl m.data

theorem strContains_ext_left (p m n : String) (h : strContains m n = true) :
    strContains (p ++ m) n = true := by
  unfold strContains at h ⊢
  rw [data_append]
  exact subList_append_left n.data p.data h

theorem strContains_ext_right (m q n : String) (h : strContains m n = true) :
    strContains (m ++ q) n = true := by
  unfold strContains at h ⊢
  rw [data_append]
  exact subList_append_right n.data q.data h

theorem dropWhile_append_all {p : Char → Bool} : ∀ (w b : List Char),
    (∀ c ∈ w, p c = true) → List.dropWhile p (w ++ b) = List.dropWhile p b
  | [], _, _ => rfl
  | c :: w, b, hw => by
    have hc : p c = true := hw c (by simp)
    simp only [List.cons_append, List.dropWhile, hc]
    exact dropWhile_append_all w b (fun x hx => hw x (by simp [hx]))

theorem dropWhile_nil_of_all {p : Char → Bool} (w : List Char)
    (hw : ∀ c ∈ w, p c = true) : List.dropWhile p w = [] := by
  have := dropWhile_append_all (p := p) w [] hw
  simpa using this

theorem dropWhile_append_cases {p : Char → Bool} : ∀ (a b : List Char),
    (List.dropWhile p a = [] ∧ List.dropWhile p (a ++ b) = List.dropWhile p b) ∨
    (List.dropWhile p a ≠ [] ∧ List.dropWhile p (a ++ b) = List.dropWhile p a ++ b)
  | [], _ => Or.inl ⟨rfl, rfl⟩
  | x :: a, b => by
    by_cases hx : p x = true
    · simp only [List.cons_append, List.dropWhile, hx]
      exact dropWhile_append_cases (p := p) a b
    · have hx' : p x = false := by simp [hx]
      refine Or.inr ⟨?_, ?_⟩ <;> simp [List.dropWhile, hx']

theorem pyStripList_space_left (w l : List Char)
    (hw : ∀ c ∈ w, isPySpace c = true) :
    pyStripList (w ++ l) = pyStripList l := by
  unfold pyStripList
  rw [dropWhile_append_all w l hw]

theorem pyStripList_space_right (l w : List Char)
    (hw : ∀ c ∈ w, isPySpace c = true) :
    pyStripList (l ++ w) = pyStripList l := by
  unfold pyStripList
  have hrev : ∀ c ∈ w.reverse, isPySpace c = true := by
    intro c hc
    exact hw c (List.mem_reverse.mp hc)
  rcases dropWhile_append_cases (p := isPySpace) l w with ⟨hnil, h⟩ | ⟨_, h⟩
  · rw [h, hnil, dropWhile_nil_of_all w hw]
  · rw [h, List.reverse_append, dropWhile_append_all w.reverse _ hrev]

theorem pyStripList_all_space (w : List Char)
    (hw : ∀ c ∈ w, isPySpace c = true) : pyStripList w = [] := by
  unfold pyStripList
  rw [dropWhile_nil_of_all w hw]
  rfl

theorem startsWith0x_normalizePk (l : List Char) : startsWith0x (normalizePk l) = true := by
  unfold normalizePk
  by_cases h : startsWith0x l = true
  · simp [h]
  · rw [if_neg h]
    rfl

theorem lastMatch_cons (p : Service → Bool) (s : Service) (t : List Service) :
    lastMatch p (s :: t) =
      Option.or (lastMatch p t) (if p s then some s.name else none) := rfl

theorem selectStep_fst (acc : Option String × Option String) (s : Service) :
    (selectStep acc s).1 = Option.or (if gethQual s then some s.name else none) acc.1 := by
  unfold selectStep gethQual
  cases ht : (s.type == "ClusterIP") <;>
    cases hg : strContains s.name "geth" <;>
      cases hp : strContains s.name "public" <;>
        simp [ht, hg, hp, Option.or]

theorem selectStep_snd (acc : Option String × Option String) (s : Service) :
    (selectStep acc s).2 = Option.or (if beaconQual s then some s.name else none) acc.2 := by
  unfold selectStep beaconQual
  cases ht : (s.type == "ClusterIP") <;>
    cases hb : strContains s.name "lighthouse-beacon" <;>
      cases hp : strContains s.name "public" <;>
        simp [ht, hb, hp, Option.or]

theorem foldl_selectStep : ∀ (l : List Service) (acc : Option String × Option String),
    List.foldl selectStep acc l =
      (Option.or (lastMatch gethQual l) acc.1, Option.or (lastMatch beaconQual l) acc.2)
  | [], acc => by simp [lastMatch, Option.or]
  | s :: t, acc => by
    rw [List.foldl_cons, foldl_selectStep t (selectStep acc s)]
    rw [lastMatch_cons, lastMatch_cons, selectStep_fst, selectStep_snd,
      Option.or_assoc, Option.or_assoc]

theorem lastMatch_mem {p : Service → Bool} : ∀ {l : List Service} {n : String},
    lastMatch p l = some n → ∃ s, s ∈ l ∧ s.name = n ∧ p s = true := by
  intro l
  induction l with
  | nil => intro n h; cases h
  | cons s t ih =>
    intro n h
    unfold lastMatch at h
    cases hlt : lastMatch p t with
    | some m =>
      rw [hlt] at h
      simp only [Option.or] at h
      obtain ⟨u, hu, hn, hp⟩ := ih (hlt.trans h)
      exact ⟨u, by simp [hu], hn, hp⟩
    | none =>
      rw [hlt] at h
      simp only [Option.or] at h
      by_cases hp : p s = true
      · rw [if_pos hp] at h
        injection h with h
        exact ⟨s, by simp, h, hp⟩
      · rw [if_neg hp] at h
        cases h

theorem lastMatch_none {p : Service → Bool} : ∀ {l : List Service},
    (∀ s ∈ l, p s = false) → lastMatch p l = none := by
  intro l
  induction l with
  | nil => intro _; rfl
  | cons s t ih =>
    intro h
    unfold lastMatch
    rw [ih (fun u hu => h u (by simp [hu])), h s (by simp)]
    rfl

theorem find_services_eq (services : List Service) :
    find_services_by_release (some services) =
      (lastMatch gethQual services, lastMatch beaconQual services) := by
  show find_services_list services = _
  unfold find_services_list
  rw [foldl_selectStep services (none, none)]
  cases lastMatch gethQual services <;> cases lastMatch beaconQual services <;> simp [Option.or]

theorem gethQual_split {s : Service} (h : gethQual s = true) :
    s.type = "ClusterIP" ∧ strContains s.name "geth" = true ∧
      strContains s.name "public" = false := by
  unfold gethQual at h
  simp only [Bool.and_eq_true, beq_iff_eq, Bool.not_eq_true'] at h
  exact ⟨h.1.1, h.1.2, h.2⟩

theorem beaconQual_split {s : Service} (h : beaconQual s = true) :
    s.type = "ClusterIP" ∧ strContains s.name "lighthouse-beacon" = true ∧
      strContains s.name "public" = false := by
  unfold beaconQual at h
  simp only [Bool.and_eq_true, beq_iff_eq, Bool.not_eq_true'] at h
  exact ⟨h.1.1, h.1.2, h.2⟩

theorem generate_config_err (rel : String) (relEx : Bool) (v : HelmValues)
    (sq : Option (List Service)) (se : String → Bool)
    (h : find_services_by_release sq = (none, none)) :
    generate_config rel relEx v sq se =
      (if !relEx then .error ("Error: Helm release '" ++ rel ++ "' not found")
        else .error ("Error: Could not find Geth or Beacon services for release '" ++ rel ++ "'")) := by
  unfold generate_config
  rw [h]
  cases relEx <;> simp

theorem generate_config_ok {rel : String} {relEx : Bool} {v : HelmValues}
    {sq : Option (List Service)} {se : String → Bool} {r : GenResult}
    (h : generate_config rel relEx v sq se = .ok r) :
    r = {
      executionEndpoint :=
        match (find_services_by_release sq).1 with
        | some n => "http://" ++ n ++ ":" ++ toString (v.gethAuthPort.getD 8551)
        | none => ""
      beaconEndpoint :=
        match (find_services_by_release sq).2 with
        | some n => "http://" ++ n ++ ":" ++ toString (v.beaconApiPort.getD 5052)
        | none => ""
      jwtSecretName := (detect_jwt_secret rel v se).getD "REPLACE_WITH_JWT_SECRET_NAME"
      externalEnabled := true
      gethEnabled := false
      beaconEnabled := false
      geth_service := (find_services_by_release sq).1
      beacon_service := (find_services_by_release sq).2
      exec_port := v.gethAuthPort.getD 8551
      beacon_port := v.beaconApiPort.getD 5052
      jwt_secret := detect_jwt_secret rel v se } := by
  unfold generate_config at h
  cases relEx with
  | false => simp at h
  | true =>
    rw [if_neg (by decide)] at h
    by_cases hc : ((find_services_by_release sq).1.isNone &&
        (find_services_by_release sq).2.isNone) = true
    · rw [if_pos hc] at h
      simp at h
    · rw [if_neg hc] at h
      injection h with h
      exact h.symm

theorem mainRun_request (pArg fArg vcUrl tPath : String) (fs : FileState) (http : HttpOutcome) :
    (mainRun pArg fArg vcUrl tPath fs http).request =
      (match validate_pubkey pArg, validate_eth_address fArg, read_token tPath fs with
        | .ok pk, .ok addr, .ok tok => some (request_of vcUrl tok pk addr)
        | _, _, _ => none) := by
  unfold mainRun
  cases validate_pubkey pArg with
  | error m => rfl
  | ok pk =>
    cases validate_eth_address fArg with
    | error m => rfl
    | ok addr =>
      cases read_token tPath fs with
      | error m => rfl
      | ok tok =>
        cases http with
        | timeout => rfl
        | transportError e => rfl
        | response st body =>
          simp only [post_fee_recipient]
          split_ifs <;> rfl

theorem mainRun_exit_total (pArg fArg vcUrl tPath : String) (fs : FileState) (http : HttpOutcome) :
    (mainRun pArg fArg vcUrl tPath fs http).exitCode = 0 ∨
      (mainRun pArg fArg vcUrl tPath fs http).exitCode = 1 := by
  unfold mainRun
  cases validate_pubkey pArg with
  | error m => right; rfl
  | ok pk =>
    cases validate_eth_address fArg with
    | error m => right; rfl
    | ok addr =>
      cases read_token tPath fs with
      | error m => right; rfl
      | ok tok =>
        cases http with
        | timeout => right; rfl
        | transportError e => right; rfl
        | response st body =>
          simp only [post_fee_recipient]
          split_ifs
          · left; rfl
          · right; rfl
          · right; rfl
          · right; rfl

example : validate_pubkey ⟨'0' :: 'x' :: List.replicate 96 'a'⟩ =
    .ok ⟨'0' :: 'x' :: List.replicate 96 'a'⟩ := by decide

example : isAccept (validate_pubkey ⟨'0' :: 'x' :: (List.replicate 96 'a' ++ [' '])⟩) = true := by
  decide

example : validate_eth_address "0xzz" = .error "fee recipient must be 0x + 40 hex chars" := by
  decide

example : read_token "t" (.content "  \t ") = .error ("token file " ++ "t" ++ " is empty") := by
  decide

/-! ## Claims -/

/-- Claim C2, counterexample: on the input `0x` + 96 hex chars + one
trailing space, the claim's rule (prepend `0x` if absent, then require
exactly 98 characters) rejects, because the raw input is 99 characters and
already starts with `0x`; but the code's `validate_pubkey` accepts it,
because it strips surrounding whitespace before any other check. -/
theorem claim_C2_counterexample :
    claimPubkeyAccepts ⟨'0' :: 'x' :: (List.replicate 96 'a' ++ [' '])⟩ = false ∧
      isAccept (validate_pubkey ⟨'0' :: 'x' :: (List.replicate 96 'a' ++ [' '])⟩) = true := by
  decide

/-- Claim C2 (amended): validation first strips surrounding whitespace, then
prepends `0x` if absent; it accepts exactly when the resulting string is 98
characters long and its last 96 characters decode under Python's hex
decoder (`fromhexOk`); the accepted value is exactly this normalized form;
a rejected pubkey terminates the run before any network request; and for
accepted inputs the normalized form is the value embedded in the request
URL. -/
theorem claim_C2 (s : String) :
    (isAccept (validate_pubkey s) = true ↔
      ((normalize_pubkey s).length = 98 ∧ fromhexOk ((normalize_pubkey s).drop 2) = true))
    ∧ (∀ pk, validate_pubkey s = .ok pk → pk.data = normalize_pubkey s)
    ∧ (isAccept (validate_pubkey s) = false →
        ∀ fArg vcUrl tPath fs http, (mainRun s fArg vcUrl tPath fs http).request = none)
    ∧ (∀ pk fArg addr vcUrl tPath fs tok http req,
        validate_pubkey s = .ok pk →
        validate_eth_address fArg = .ok addr →
        read_token tPath fs = .ok tok →
        (mainRun s fArg vcUrl tPath fs http).request = some req →
        req.url = (⟨rstripSlash vcUrl.data⟩ : String) ++ "/eth/v1/validator/" ++ pk ++ "/feerecipient") := by
  have hrw : validate_pubkey s = pubkey_check (pyStripList s.data) := rfl
  have hn : normalize_pubkey s = normalizePk (pyStripList s.data) := rfl
  have hsw := startsWith0x_normalizePk (pyStripList s.data)
  refine ⟨?_, ?_, ?_, ?_⟩
  · rw [hrw, hn]
    unfold pubkey_check
    cases h98 : ((normalizePk (pyStripList s.data)).length == 98) <;>
      cases hhex : fromhexOk ((normalizePk (pyStripList s.data)).drop 2) <;>
        simp [isAccept, hsw, h98, hhex, beq_iff_eq] <;>
          simp [beq_iff_eq] at h98 <;> exact h98
  · intro pk hpk
    rw [hrw] at hpk
    rw [hn]
    unfold pubkey_check at hpk
    by_cases hc : (startsWith0x (normalizePk (pyStripList s.data)) &&
        ((normalizePk (pyStripList s.data)).length == 98)) = true
    · rw [if_pos hc] at hpk
      by_cases hh : fromhexOk ((normalizePk (pyStripList s.data)).drop 2) = true
      · rw [if_pos hh] at hpk
        injection hpk with h
        rw [← h]
      · rw [if_neg hh] at hpk; cases hpk
    · rw [if_neg hc] at hpk; cases hpk
  · intro hrej fArg vcUrl tPath fs http
    rw [mainRun_request]
    cases hv : validate_pubkey s with
    | error m => rfl
    | ok pk => rw [hv] at hrej; simp [isAccept] at hrej
  · intro pk fArg addr vcUrl tPath fs tok http req hpk ha ht hreq
    rw [mainRun_request] at hreq
    simp only [hpk, ha, ht] at hreq
    injection hreq with h
    rw [← h]
    rfl

/-- Claim C2, witness: the concrete padded input `0x` + 96 × `a` + `" "` is
accepted and normalizes to `0x` + 96 × `a`. -/
theorem claim_C2_witness :
    (⟨'0' :: 'x' :: List.replicate 96 'a'⟩ : String).data =
      normalize_pubkey ⟨'0' :: 'x' :: (List.replicate 96 'a' ++ [' '])⟩ :=
  (claim_C2 ⟨'0' :: 'x' :: (List.replicate 96 'a' ++ [' '])⟩).2.1
    ⟨'0' :: 'x' :: List.replicate 96 'a'⟩ (by decide)

/-- Claim C3, counterexample: on the input `0x` + 40 hex chars + one
trailing space, the claim's rule (exactly 42 characters) rejects, but the
code's `validate_eth_address` accepts it after stripping the whitespace. -/
theorem claim_C3_counterexample :
    claimEthAccepts ⟨'0' :: 'x' :: (List.replicate 40 'b' ++ [' '])⟩ = false ∧
      isAccept (validate_eth_address ⟨'0' :: 'x' :: (List.replicate 40 'b' ++ [' '])⟩) = true := by
  decide

/-- Claim C3 (amended): after stripping surrounding whitespace, validation
accepts exactly when the result is 42 characters long, starts with `0x`,
and its last 40 characters decode under Python's hex decoder; the accepted
value is the stripped string; a rejected address terminates the run before
any network request; and the accepted value is the address placed in the
request body. -/
theorem claim_C3 (s : String) :
    (isAccept (validate_eth_address s) = true ↔
      (startsWith0x (pyStripList s.data) = true ∧ (pyStripList s.data).length = 42 ∧
        fromhexOk ((pyStripList s.data).drop 2) = true))
    ∧ (∀ a, validate_eth_address s = .ok a → a.data = pyStripList s.data)
    ∧ (isAccept (validate_eth_address s) = false →
        ∀ pArg vcUrl tPath fs http, (mainRun pArg s vcUrl tPath fs http).request = none)
    ∧ (∀ a pArg pk vcUrl tPath fs tok http req,
        validate_pubkey pArg = .ok pk →
        validate_eth_address s = .ok a →
        read_token tPath fs = .ok tok →
        (mainRun pArg s vcUrl tPath fs http).request = some req →
        req.ethaddress = a) := by
  have hrw : validate_eth_address s = eth_check (pyStripList s.data) := rfl
  refine ⟨?_, ?_, ?_, ?_⟩
  · rw [hrw]
    unfold eth_check
    cases hx : startsWith0x (pyStripList s.data) <;>
      cases h42 : ((pyStripList s.data).length == 42) <;>
        cases hhex : fromhexOk ((pyStripList s.data).drop 2) <;>
          simp [isAccept, hx, h42, hhex, beq_iff_eq] <;>
            simp [beq_iff_eq] at h42 <;> exact h42
  · intro a ha
    rw [hrw] at ha
    unfold eth_check at ha
    by_cases hc : (startsWith0x (pyStripList s.data) && ((pyStripList s.data).length == 42)) = true
    · rw [if_pos hc] at ha
      by_cases hh : fromhexOk ((pyStripList s.data).drop 2) = true
      · rw [if_pos hh] at ha
        injection ha with h
        rw [← h]
      · rw [if_neg hh] at ha; cases ha
    · rw [if_neg hc] at ha; cases ha
  · intro hrej pArg vcUrl tPath fs http
    rw [mainRun_request]
    cases hv : validate_eth_address s with
    | error m => cases validate_pubkey pArg <;> rfl
    | ok a => rw [hv] at hrej; simp [isAccept] at hrej
  · intro a pArg pk vcUrl tPath fs tok http req hpk ha ht hreq
    rw [mainRun_request] at hreq
    simp only [hpk, ha, ht] at hreq
    injection hreq with h
    rw [← h]
    rfl

/-- Claim C3, witness: the concrete padded input `0x` + 40 × `b` + `" "` is
accepted and the accepted value is the stripped string. -/
theorem claim_C3_witness :
    (⟨'0' :: 'x' :: List.replicate 40 'b'⟩ : String).data =
      pyStripList (⟨'0' :: 'x' :: (List.replicate 40 'b' ++ [' '])⟩ : String).data :=
  (claim_C3 ⟨'0' :: 'x' :: (List.replicate 40 'b' ++ [' '])⟩).2.1
    ⟨'0' :: 'x' :: List.replicate 40 'b'⟩ (by decide)

/-- Claim C1: for a run whose validations pass and that receives an HTTP
response, exit status is 0 iff the status is 202, in which case the one
stdout line names both the address and the pubkey; 401 exits 1 with a
message mentioning `unauthorized`; 404 exits 1 saying the validator was not
found; any other status exits 1 with a message carrying the (stripped)
response body, or the `<no body>` placeholder when the body is empty. -/
theorem claim_C1 (pArg fArg vcUrl tPath : String) (fs : FileState) (status : Nat) (body : String)
    (pk addr tok : String)
    (hpk : validate_pubkey pArg = .ok pk)
    (haddr : validate_eth_address fArg = .ok addr)
    (htok : read_token tPath fs = .ok tok) :
    ((mainRun pArg fArg vcUrl tPath fs (.response status body)).exitCode = 0 ↔ status = 202)
    ∧ (status = 202 →
        (mainRun pArg fArg vcUrl tPath fs (.response status body)).stdoutLines =
          ["OK: fee recipient set to " ++ addr ++ " for " ++ pk]
        ∧ strContains ("OK: fee recipient set to " ++ addr ++ " for " ++ pk) addr = true
        ∧ strContains ("OK: fee recipient set to " ++ addr ++ " for " ++ pk) pk = true
        ∧ (mainRun pArg fArg vcUrl tPath fs (.response status body)).stderrLines = [])
    ∧ (status = 401 →
        (mainRun pArg fArg vcUrl tPath fs (.response status body)).exitCode = 1
        ∧ (mainRun pArg fArg vcUrl tPath fs (.response status body)).stderrLines =
            ["ERROR: unauthorized: check token and VC HTTP settings/URL"]
        ∧ strContains "ERROR: unauthorized: check token and VC HTTP settings/URL" "unauthorized" = true)
    ∧ (status = 404 →
        (mainRun pArg fArg vcUrl tPath fs (.response status body)).exitCode = 1
        ∧ (mainRun pArg fArg vcUrl tPath fs (.response status body)).stderrLines =
            ["ERROR: validator not found (VC has not loaded this pubkey?)"])
    ∧ (status ≠ 202 → status ≠ 401 → status ≠ 404 →
        (mainRun pArg fArg vcUrl tPath fs (.response status body)).exitCode = 1
        ∧ (mainRun pArg fArg vcUrl tPath fs (.response status body)).stderrLines =
            ["ERROR: unexpected status " ++ toString status ++ ": " ++ body_disp body]
        ∧ (body = "" → body_disp body = "<no body>")
        ∧ ((pyStripList body.data).isEmpty = false →
            strContains ("ERROR: unexpected status " ++ toString status ++ ": " ++ body_disp body)
              ⟨pyStripList body.data⟩ = true)) := by
  have hrun : mainRun pArg fArg vcUrl tPath fs (.response status body) =
      (if status == 202 then
        ⟨0, ["OK: fee recipient set to " ++ addr ++ " for " ++ pk], [],
          some (request_of vcUrl tok pk addr)⟩
      else if status == 401 then
        ⟨1, [], ["ERROR: unauthorized: check token and VC HTTP settings/URL"],
          some (request_of vcUrl tok pk addr)⟩
      else if status == 404 then
        ⟨1, [], ["ERROR: validator not found (VC has not loaded this pubkey?)"],
          some (request_of vcUrl tok pk addr)⟩
      else
        ⟨1, [], ["ERROR: unexpected status " ++ toString status ++ ": " ++ body_disp body],
          some (request_of vcUrl tok pk addr)⟩) := by
    unfold mainRun
    rw [hpk, haddr, htok]
    rfl
  have hokaddr : strContains ("OK: fee recipient set to " ++ addr ++ " for " ++ pk) addr = true :=
    strContains_ext_right _ pk addr
      (strContains_ext_right _ " for " addr
        (strContains_ext_left "OK: fee recipient set to " addr addr (strContains_self addr)))
  have hokpk : strContains ("OK: fee recipient set to " ++ addr ++ " for " ++ pk) pk = true :=
    strContains_ext_left _ pk pk (strContains_self pk)
  refine ⟨?_, ?_, ?_, ?_, ?_⟩
  · rw [hrun]
    by_cases h202 : status = 202
    · simp [h202]
    · by_cases h401 : status = 401 <;> by_cases h404 : status = 404 <;>
        simp [h202, h401, h404]
  · intro h202
    subst h202
    rw [hrun]
    simp [hokaddr, hokpk]
  · intro h401
    subst h401
    rw [hrun]
    refine ⟨rfl, rfl, by decide⟩
  · intro h404
    subst h404
    rw [hrun]
    exact ⟨rfl, rfl⟩
  · intro h202 h401 h404
    have hx : mainRun pArg fArg vcUrl tPath fs (.response status body) =
        ⟨1, [], ["ERROR: unexpected status " ++ toString status ++ ": " ++ body_disp body],
          some (request_of vcUrl tok pk addr)⟩ := by
      rw [hrun]
      rw [if_neg (by simp [h202]), if_neg (by simp [h401]), if_neg (by simp [h404])]
    rw [hx]
    refine ⟨rfl, rfl, ?_, ?_⟩
    · intro hb
      subst hb
      rfl
    · intro hne
      have hb : body_disp body = ⟨pyStripList body.data⟩ := by
        unfold body_disp
        rw [hne]
        rfl
      rw [hb]
      exact strContains_ext_left _ _ _ (strContains_self _)

/-- Claim C1, witness: with a valid pubkey, address and token file and a 202
response, the run exits 0. -/
theorem claim_C1_witness :
    ((mainRun ⟨'0' :: 'x' :: List.replicate 96 'a'⟩ ⟨'0' :: 'x' :: List.replicate 40 'b'⟩
        "http://localhost:5062" "api-token.txt" (.content "tok")
        (.response 202 "")).exitCode = 0 ↔ (202 : Nat) = 202) :=
  (claim_C1 ⟨'0' :: 'x' :: List.replicate 96 'a'⟩ ⟨'0' :: 'x' :: List.replicate 40 'b'⟩
    "http://localhost:5062" "api-token.txt" (.content "tok") 202 ""
    ⟨'0' :: 'x' :: List.replicate 96 'a'⟩ ⟨'0' :: 'x' :: List.replicate 40 'b'⟩ "tok"
    (by decide) (by decide) (by decide)).1

/-- Claim C7: a run issues at most one HTTP request, always with the fixed
10-second timeout; when the run reaches the request, a timeout exits 1 with
the permanent-error diagnostic (no retry exists: the request count is at
most one), any other transport exception exits 1 with a `request error`
diagnostic, and every outcome terminates with exit code 0 or 1 (no raw
exception escapes). -/
theorem claim_C7 (pArg fArg vcUrl tPath : String) (fs : FileState) (http : HttpOutcome)
    (hreach : (mainRun pArg fArg vcUrl tPath fs http).request ≠ none) :
    requestCount (mainRun pArg fArg vcUrl tPath fs http) ≤ 1
    ∧ TIMEOUT_SECS = 10
    ∧ (∀ req, (mainRun pArg fArg vcUrl tPath fs http).request = some req →
        req.timeout = TIMEOUT_SECS)
    ∧ (http = .timeout →
        (mainRun pArg fArg vcUrl tPath fs http).exitCode = 1
        ∧ (mainRun pArg fArg vcUrl tPath fs http).stderrLines =
            ["ERROR: request timed out after 10s (treating as permanent error)"]
        ∧ strContains "ERROR: request timed out after 10s (treating as permanent error)"
            "timed out" = true)
    ∧ (∀ e, http = .transportError e →
        (mainRun pArg fArg vcUrl tPath fs http).exitCode = 1
        ∧ (mainRun pArg fArg vcUrl tPath fs http).stderrLines = ["ERROR: request error: " ++ e])
    ∧ ((mainRun pArg fArg vcUrl tPath fs http).exitCode = 0 ∨
        (mainRun pArg fArg vcUrl tPath fs http).exitCode = 1) := by
  refine ⟨?_, rfl, ?_, ?_, ?_, mainRun_exit_total pArg fArg vcUrl tPath fs http⟩
  · cases hr : (mainRun pArg fArg vcUrl tPath fs http).request <;> simp [requestCount, hr]
  · intro req h
    rw [mainRun_request] at h
    cases hp : validate_pubkey pArg with
    | error m => simp [hp] at h
    | ok pk =>
      cases ha : validate_eth_address fArg with
      | error m => simp [hp, ha] at h
      | ok addr =>
        cases ht : read_token tPath fs with
        | error m => simp [hp, ha, ht] at h
        | ok tok =>
          simp only [hp, ha, ht] at h
          injection h with h
          rw [← h]
          rfl
  · intro hto
    subst hto
    cases hp : validate_pubkey pArg with
    | error m => exfalso; apply hreach; rw [mainRun_request]; simp [hp]
    | ok pk =>
      cases ha : validate_eth_address fArg with
      | error m => exfalso; apply hreach; rw [mainRun_request]; simp [hp, ha]
      | ok addr =>
        cases ht : read_token tPath fs with
        | error m => exfalso; apply hreach; rw [mainRun_request]; simp [hp, ha, ht]
        | ok tok =>
          have hrun : mainRun pArg fArg vcUrl tPath fs .timeout =
              ⟨1, [], ["ERROR: request timed out after 10s (treating as permanent error)"],
                some (request_of vcUrl tok pk addr)⟩ := by
            unfold mainRun
            rw [hp, ha, ht]
            rfl
          rw [hrun]
          exact ⟨rfl, rfl, by decide⟩
  · intro e hte
    subst hte
    cases hp : validate_pubkey pArg with
    | error m => exfalso; apply hreach; rw [mainRun_request]; simp [hp]
    | ok pk =>
      cases ha : validate_eth_address fArg with
      | error m => exfalso; apply hreach; rw [mainRun_request]; simp [hp, ha]
      | ok addr =>
        cases ht : read_token tPath fs with
        | error m => exfalso; apply hreach; rw [mainRun_request]; simp [hp, ha, ht]
        | ok tok =>
          have hrun : mainRun pArg fArg vcUrl tPath fs (.transportError e) =
              ⟨1, [], ["ERROR: request error: " ++ e],
                some (request_of vcUrl tok pk addr)⟩ := by
            unfold mainRun
            rw [hp, ha, ht]
            rfl
          rw [hrun]
          exact ⟨rfl, rfl⟩

/-- Claim C7, witness: a concrete run that reaches the request and times out
exits 1. -/
theorem claim_C7_witness :
    requestCount (mainRun ⟨'0' :: 'x' :: List.replicate 96 'a'⟩
      ⟨'0' :: 'x' :: List.replicate 40 'b'⟩ "http://localhost:5062" "api-token.txt"
      (.content "tok") .timeout) ≤ 1 :=
  (claim_C7 ⟨'0' :: 'x' :: List.replicate 96 'a'⟩ ⟨'0' :: 'x' :: List.replicate 40 'b'⟩
    "http://localhost:5062" "api-token.txt" (.content "tok") .timeout (by decide)).1

/-- Claim C8: the token check fails with a fatal message naming the path
when the file is missing, unreadable, or whitespace-only (strip-empty); on
success the token is the stripped content and is the bearer value of the
`Authorization` header; and any token failure means no request is ever
issued. -/
theorem claim_C8 (path : String) (fs : FileState) :
    read_token path .missing = .error ("token file not found: " ++ path)
    ∧ (∀ e, read_token path (.unreadable e) =
        .error ("error reading token file " ++ path ++ ": " ++ e))
    ∧ (∀ text, pyStripList text.data = [] →
        read_token path (.content text) = .error ("token file " ++ path ++ " is empty"))
    ∧ (∀ text, (∀ c ∈ text.data, isPySpace c = true) →
        read_token path (.content text) = .error ("token file " ++ path ++ " is empty"))
    ∧ (∀ text, pyStripList text.data ≠ [] →
        read_token path (.content text) = .ok ⟨pyStripList text.data⟩)
    ∧ (∀ m, read_token path fs = .error m → strContains m path = true)
    ∧ (∀ m pArg fArg vcUrl http, read_token path fs = .error m →
        (mainRun pArg fArg vcUrl path fs http).request = none)
    ∧ (∀ tok pArg fArg vcUrl http req, read_token path fs = .ok tok →
        (mainRun pArg fArg vcUrl path fs http).request = some req →
        req.authorization = "Bearer " ++ tok) := by
  refine ⟨rfl, fun e => rfl, ?_, ?_, ?_, ?_, ?_, ?_⟩
  · intro text h
    simp [read_token, h]
  · intro text hall
    simp [read_token, pyStripList_all_space text.data hall]
  · intro text h
    simp [read_token, List.isEmpty_iff, h]
  · intro m hm
    cases fs with
    | missing =>
      injection hm with h
      rw [← h]
      exact strContains_ext_left _ path path (strContains_self path)
    | unreadable e =>
      injection hm with h
      rw [← h]
      exact strContains_ext_right _ e path
        (strContains_ext_right _ ": " path
          (strContains_ext_left "error reading token file " path path (strContains_self path)))
    | content text =>
      simp only [read_token] at hm
      by_cases he : (pyStripList text.data).isEmpty = true
      · rw [if_pos he] at hm
        injection hm with h
        rw [← h]
        exact strContains_ext_right _ " is empty" path
          (strContains_ext_left "token file " path path (strContains_self path))
      · rw [if_neg he] at hm
        cases hm
  · intro m pArg fArg vcUrl http h
    rw [mainRun_request]
    cases hp : validate_pubkey pArg <;> cases ha : validate_eth_address fArg <;>
      simp [hp, ha, h]
  · intro tok pArg fArg vcUrl http req ht hreq
    rw [mainRun_request] at hreq
    cases hp : validate_pubkey pArg with
    | error m => simp [hp] at hreq
    | ok pk =>
      cases ha : validate_eth_address fArg with
      | error m => simp [hp, ha] at hreq
      | ok addr =>
        simp only [hp, ha, ht] at hreq
        injection hreq with h
        rw [← h]
        rfl

/-- Claim C8, witness: a whitespace-only token file produces the empty-token
diagnostic naming the path. -/
theorem claim_C8_witness :
    read_token "api-token.txt" (.content " \t \n") =
      .error ("token file " ++ "api-token.txt" ++ " is empty") :=
  (claim_C8 "api-token.txt" (.content " \t \n")).2.2.2.1 " \t \n" (by decide)

/-- Claim C9: both validators strip surrounding whitespace before any other
check, so surrounding an input with extra whitespace never changes the
validation outcome (acceptance, the normalized value, or the error
message). -/
theorem claim_C9 (s w w' : String)
    (hw : ∀ c ∈ w.data, isPySpace c = true) (hw' : ∀ c ∈ w'.data, isPySpace c = true) :
    validate_pubkey (w ++ s ++ w') = validate_pubkey s ∧
      validate_eth_address (w ++ s ++ w') = validate_eth_address s := by
  have hd : (w ++ s ++ w').data = w.data ++ (s.data ++ w'.data) := by
    rw [data_append, data_append, List.append_assoc]
  have hstrip : pyStripList ((w ++ s ++ w').data) = pyStripList s.data := by
    rw [hd, pyStripList_space_left _ _ hw, pyStripList_space_right _ _ hw']
  constructor
  · show pubkey_check (pyStripList ((w ++ s ++ w').data)) = pubkey_check (pyStripList s.data)
    rw [hstrip]
  · show eth_check (pyStripList ((w ++ s ++ w').data)) = eth_check (pyStripList s.data)
    rw [hstrip]

/-- Claim C9, witness: padding a concrete valid pubkey with a leading space
and a trailing tab changes neither validator's result. -/
theorem claim_C9_witness :
    validate_pubkey (" " ++ (⟨'0' :: 'x' :: List.replicate 96 'a'⟩ : String) ++ "\t") =
        validate_pubkey ⟨'0' :: 'x' :: List.replicate 96 'a'⟩ ∧
      validate_eth_address (" " ++ (⟨'0' :: 'x' :: List.replicate 96 'a'⟩ : String) ++ "\t") =
        validate_eth_address ⟨'0' :: 'x' :: List.replicate 96 'a'⟩ :=
  claim_C9 ⟨'0' :: 'x' :: List.replicate 96 'a'⟩ " " "\t" (by decide) (by decide)

/-- Claim C4, counterexample: with no configured value, a cluster that
contains a secret named exactly `r-validator-auth-secret` (the pattern the
claim states), `detect_jwt_secret` still resolves nothing, because the code
probes the name `r-eth-validator-auth-jwt` instead. -/
theorem claim_C4_counterexample :
    detect_jwt_secret "r" ⟨none, none, none⟩ (fun n => n == "r-validator-auth-secret") = none
    ∧ (fun n => n == "r-validator-auth-secret") ("r" ++ "-validator-auth-secret") = true := by
  decide

/-- Claim C4 (amended): the shared-secret reference is resolved in this
fixed order: a present and non-empty `externalNode.jwtSecretName` value
from the fetched configuration wins; otherwise the name
`<release>-eth-validator-auth-jwt` is used exactly when such a secret
exists in the cluster; otherwise the resolution is empty, in which case the
emitted document carries the placeholder `REPLACE_WITH_JWT_SECRET_NAME`
and the YAML output carries a warning annotation. -/
theorem claim_C4 (rel : String) (v : HelmValues) (se : String → Bool) :
    (∀ s, v.jwtSecretName = some s → s ≠ "" → detect_jwt_secret rel v se = some s)
    ∧ ((v.jwtSecretName = none ∨ v.jwtSecretName = some "") →
        (se (rel ++ "-eth-validator-auth-jwt") = true →
          detect_jwt_secret rel v se = some (rel ++ "-eth-validator-auth-jwt"))
        ∧ (se (rel ++ "-eth-validator-auth-jwt") = false →
          detect_jwt_secret rel v se = none))
    ∧ (∀ relEx sq r, generate_config rel relEx v sq se = .ok r →
        r.jwt_secret = detect_jwt_secret rel v se
        ∧ (∀ j, r.jwt_secret = some j → r.jwtSecretName = j)
        ∧ (r.jwt_secret = none →
            r.jwtSecretName = "REPLACE_WITH_JWT_SECRET_NAME"
            ∧ ∀ ns gen, strContains (format_yaml_config rel ns gen r)
                "WARNING: JWT secret not auto-detected - REPLACE THIS VALUE!" = true)) := by
  refine ⟨?_, ?_, ?_⟩
  · intro s hs hne
    simp only [detect_jwt_secret, hs]
    rw [if_neg (by simp [hne])]
  · intro hv
    rcases hv with hv | hv <;> simp only [detect_jwt_secret, hv] <;>
      refine ⟨fun hse => ?_, fun hse => ?_⟩
    · rw [if_pos hse]
    · rw [if_neg (by simp [hse])]
    · rw [if_pos (by decide), if_pos hse]
    · rw [if_pos (by decide), if_neg (by simp [hse])]
  · intro relEx sq r h
    have hr := generate_config_ok h
    refine ⟨by rw [hr], ?_, ?_⟩
    · intro j hj
      rw [hr] at hj ⊢
      simp only at hj
      simp [hj]
    · intro hnone
      have hw : jwt_warning_of r =
          "  # WARNING: JWT secret not auto-detected - REPLACE THIS VALUE!" := by
        unfold jwt_warning_of
        rw [hnone]
        rfl
      constructor
      · rw [hr] at hnone ⊢
        simp only at hnone
        simp [hnone]
      · intro ns gen
        unfold format_yaml_config
        rw [hw]
        exact strContains_ext_right _ _ _ (strContains_ext_left _ _ _ (by decide))

/-- Claim C4, witness: a configured non-empty secret name wins over
everything else. -/
theorem claim_C4_witness :
    detect_jwt_secret "r" ⟨none, none, some "sec"⟩ (fun _ => false) = some "sec" :=
  (claim_C4 "r" ⟨none, none, some "sec"⟩ (fun _ => false)).1 "sec" rfl (by decide)

/-- Claim C5, counterexample: two ClusterIP services named with the claim's
markers (`execution-client`, `beacon`) and without `public` are both
ignored by the code, which looks for the substrings `geth` and
`lighthouse-beacon` instead. -/
theorem claim_C5_counterexample :
    find_services_by_release
        (some [⟨"a-execution-client", "ClusterIP"⟩, ⟨"a-beacon", "ClusterIP"⟩]) = (none, none)
    ∧ strContains "a-execution-client" "execution-client" = true
    ∧ strContains "a-beacon" "beacon" = true
    ∧ strContains "a-execution-client" "public" = false
    ∧ strContains "a-beacon" "public" = false := by
  decide

/-- Claim C5 (amended): among the listed services, the generator keeps for
each role only `ClusterIP` services whose name contains that role's marker
(`geth` for the execution role, `lighthouse-beacon` for the beacon role)
and does not contain `public`; at most one service is kept per role, and
when several qualify the last qualifying service in listing order is
kept. -/
theorem claim_C5 (services : List Service) :
    find_services_by_release (some services) =
      (lastMatch gethQual services, lastMatch beaconQual services)
    ∧ (∀ n, lastMatch gethQual services = some n →
        ∃ s, s ∈ services ∧ s.name = n ∧ s.type = "ClusterIP" ∧
          strContains s.name "geth" = true ∧ strContains s.name "public" = false)
    ∧ (∀ n, lastMatch beaconQual services = some n →
        ∃ s, s ∈ services ∧ s.name = n ∧ s.type = "ClusterIP" ∧
          strContains s.name "lighthouse-beacon" = true ∧
          strContains s.name "public" = false) := by
  refine ⟨find_services_eq services, ?_, ?_⟩
  · intro n h
    obtain ⟨s, hs, hn, hq⟩ := lastMatch_mem h
    obtain ⟨h1, h2, h3⟩ := gethQual_split hq
    exact ⟨s, hs, hn, h1, h2, h3⟩
  · intro n h
    obtain ⟨s, hs, hn, hq⟩ := lastMatch_mem h
    obtain ⟨h1, h2, h3⟩ := beaconQual_split hq
    exact ⟨s, hs, hn, h1, h2, h3⟩

/-- Claim C5, witness: with two qualifying geth services, the later one in
listing order is the one kept. -/
theorem claim_C5_witness :
    find_services_by_release (some [⟨"r-geth", "ClusterIP"⟩, ⟨"r-geth-2", "ClusterIP"⟩]) =
      (lastMatch gethQual [⟨"r-geth", "ClusterIP"⟩, ⟨"r-geth-2", "ClusterIP"⟩],
        lastMatch beaconQual [⟨"r-geth", "ClusterIP"⟩, ⟨"r-geth-2", "ClusterIP"⟩]) :=
  (claim_C5 [⟨"r-geth", "ClusterIP"⟩, ⟨"r-geth-2", "ClusterIP"⟩]).1

/-- Claim C6: the generator uses the execution auth port from the fetched
configuration when present and 8551 otherwise, the beacon API port when
present and 5052 otherwise; and each emitted endpoint equals
`http://<service-name>:<port>` when that role's service was resolved and
the empty string otherwise. -/
theorem claim_C6 (rel : String) (relEx : Bool) (v : HelmValues) (sq : Option (List Service))
    (se : String → Bool) (r : GenResult)
    (h : generate_config rel relEx v sq se = .ok r) :
    r.exec_port = v.gethAuthPort.getD 8551
    ∧ r.beacon_port = v.beaconApiPort.getD 5052
    ∧ (∀ p, v.gethAuthPort = some p → r.exec_port = p)
    ∧ (v.gethAuthPort = none → r.exec_port = 8551)
    ∧ (∀ p, v.beaconApiPort = some p → r.beacon_port = p)
    ∧ (v.beaconApiPort = none → r.beacon_port = 5052)
    ∧ r.executionEndpoint = (match r.geth_service with
        | some n => "http://" ++ n ++ ":" ++ toString r.exec_port
        | none => "")
    ∧ r.beaconEndpoint = (match r.beacon_service with
        | some n => "http://" ++ n ++ ":" ++ toString r.beacon_port
        | none => "") := by
  have hr := generate_config_ok h
  subst hr
  refine ⟨rfl, rfl, ?_, ?_, ?_, ?_, rfl, rfl⟩
  · intro p hp; simp [hp]
  · intro hp; simp [hp]
  · intro p hp; simp [hp]
  · intro hp; simp [hp]

/-- Claim C6, witness: a configured execution port 9551 is used in place of
the default. -/
theorem claim_C6_witness :
    ({ executionEndpoint := "http://r-geth:9551"
       beaconEndpoint := ""
       jwtSecretName := "REPLACE_WITH_JWT_SECRET_NAME"
       externalEnabled := true
       gethEnabled := false
       beaconEnabled := false
       geth_service := some "r-geth"
       beacon_service := none
       exec_port := 9551
       beacon_port := 5052
       jwt_secret := none } : GenResult).exec_port =
      (⟨some 9551, none, none⟩ : HelmValues).gethAuthPort.getD 8551 :=
  (claim_C6 "r" true ⟨some 9551, none, none⟩ (some [⟨"r-geth", "ClusterIP"⟩])
    (fun _ => false) _ (by decide)).1

/-- Claim C10: service selection only ever keeps `ClusterIP` services: a
kept name always belongs to a listed ClusterIP service, and when every
listed service is non-ClusterIP the generator behaves exactly as with an
empty service list: fatal exit code 1 with nothing written to stdout. -/
theorem claim_C10 (services : List Service) (rel ns gen : String) (v : HelmValues)
    (se : String → Bool) :
    (∀ n, (find_services_by_release (some services)).1 = some n →
        ∃ s, s ∈ services ∧ s.name = n ∧ s.type = "ClusterIP")
    ∧ (∀ n, (find_services_by_release (some services)).2 = some n →
        ∃ s, s ∈ services ∧ s.name = n ∧ s.type = "ClusterIP")
    ∧ ((∀ s ∈ services, s.type ≠ "ClusterIP") →
        find_services_by_release (some services) = (none, none)
        ∧ (∀ relEx, runGenerator rel ns gen relEx v (some services) se =
            runGenerator rel ns gen relEx v (some []) se)
        ∧ runGenerator rel ns gen true v (some services) se = ⟨1, ""⟩) := by
  refine ⟨?_, ?_, ?_⟩
  · intro n h
    rw [find_services_eq] at h
    obtain ⟨s, hs, hn, hq⟩ := lastMatch_mem h
    exact ⟨s, hs, hn, (gethQual_split hq).1⟩
  · intro n h
    rw [find_services_eq] at h
    obtain ⟨s, hs, hn, hq⟩ := lastMatch_mem h
    exact ⟨s, hs, hn, (beaconQual_split hq).1⟩
  · intro hall
    have hq : ∀ s ∈ services, gethQual s = false := by
      intro s hs
      unfold gethQual
      simp [hall s hs]
    have hb : ∀ s ∈ services, beaconQual s = false := by
      intro s hs
      unfold beaconQual
      simp [hall s hs]
    have hfind : find_services_by_release (some services) = (none, none) := by
      rw [find_services_eq, lastMatch_none hq, lastMatch_none hb]
    refine ⟨hfind, ?_, ?_⟩
    · intro relEx
      unfold runGenerator
      rw [generate_config_err rel relEx v _ se hfind,
        generate_config_err rel relEx v (some []) se rfl]
    · unfold runGenerator
      rw [generate_config_err rel true v _ se hfind]
      rfl

/-- Claim C10, witness: a single matching but NodePort-typed geth service
leaves the generator with nothing: exit 1, empty stdout. -/
theorem claim_C10_witness :
    runGenerator "r" "default" "t" true ⟨none, none, none⟩
      (some [⟨"r-geth", "NodePort"⟩]) (fun _ => false) = ⟨1, ""⟩ :=
  ((claim_C10 [⟨"r-geth", "NodePort"⟩] "r" "default" "t" ⟨none, none, none⟩
    (fun _ => false)).2.2 (by decide)).2.2

end K8ev
